import Mathlib

/-
Shallow embedding of saleor/graphql/middleware.py: the GraphQL middleware
chain (user authentication caching, channel-slug resolution with lazy
slots, opentracing spans, app bearer-token resolution, and the read-only
mutation guard).

External collaborators (Django authenticate, the default-channel lookup,
the app database query, the tracing backend, settings) are modelled as
explicit parameters.  Django SimpleLazyObject slots are modelled as an
explicit slot type recording whether the wrapped thunk has been evaluated;
note that a SimpleLazyObject instance remains an instance of its class
after its thunk has been forced, which is what the isinstance check in
ChannelMiddleware.resolve actually tests.
-/

/-- A Django user as seen by this module: an email and the is_anonymous
flag.  AnonymousUser is the anonymous sentinel. -/
structure User where
  email : String
  is_anonymous : Bool
deriving DecidableEq

def AnonymousUser : User :=
  { email := "", is_anonymous := true }

/-- The request attributes touched by get_user: the dynamically installed
_cached_user attribute.  none models the attribute being absent; some u
models the attribute being present with value u (u itself is an Option
because authenticate may return null). -/
structure AuthCtx where
  cached_user : Option (Option User)
deriving DecidableEq

/-- Embeds get_user (middleware.py lines 20-23).  The external
authenticate collaborator is passed as the value it would return for this
request.  Returns the resolved value, the updated request state, and the
number of calls made to authenticate during this invocation. -/
def get_user (authenticate : Option User) (st : AuthCtx) :
    Option User × AuthCtx × Nat :=
  match st.cached_user with
  | some u => (u, st, 0)
  | none => (authenticate, { cached_user := some authenticate }, 1)

/-- Runs get_user n times in sequence on the same request, collecting the
list of returned values, the final state and the total number of
authenticate calls. -/
def run_get_user (authenticate : Option User) :
    Nat → AuthCtx → List (Option User) × AuthCtx × Nat
  | 0, st => ([], st, 0)
  | Nat.succ n, st =>
      match get_user authenticate st with
      | (u, st1, c1) =>
          match run_get_user authenticate n st1 with
          | (us, st2, c2) => (u :: us, st2, c1 + c2)

/-- Embeds the user thunk of JWTMiddleware.resolve (lines 30-31):
get_user(request) or AnonymousUser(). -/
def jwtUser (authenticate : Option User) (st : AuthCtx) :
    User × AuthCtx × Nat :=
  match get_user authenticate st with
  | (u, st1, c) => (u.getD AnonymousUser, st1, c)

/-- A GraphQL argument value as far as ChannelMiddleware inspects it:
either a dict (modelled as an association list with string values) or
some non-dict value. -/
inductive Arg
  | dict (entries : List (String × String))
  | nonDict
deriving DecidableEq

/-- dict.get k: first value bound to k, if any. -/
def lookupKey (d : List (String × String)) (k : String) : Option String :=
  List.lookup k d

/-- The kwargs of a field resolution as read by ChannelMiddleware:
kwargs.get("input", \x7b\x7d) and kwargs.get("channel").  none models an
absent key. -/
structure ChannelKwargs where
  input : Option Arg
  channel : Option String
deriving DecidableEq

/-- Python truthiness of an optional string: None and "" are falsy. -/
def pyTruthy : Option String → Bool
  | some s => s != ""
  | none => false

/-- Embeds middleware.py lines 40-47: determine the explicit channel slug
from kwargs.  A present non-empty dict input wins and its channel_slug
entry is used (possibly absent); otherwise a non-None channel argument is
used; otherwise the slug is absent. -/
def extractChannelSlug (kwargs : ChannelKwargs) : Option String :=
  let request_input := kwargs.input.getD (Arg.dict [])
  match request_input with
  | Arg.dict d => if d.isEmpty then kwargs.channel else lookupKey d "channel_slug"
  | Arg.nonDict => kwargs.channel

/-- The request.channel_slug slot.  lazyUnevaluated seed models
SimpleLazyObject(lambda: get_channel_slug(seed)) whose thunk has not run;
lazyEvaluated v models the same object after its thunk was forced to v
(still an instance of SimpleLazyObject); plain v models a plain string
assigned directly at line 53. -/
inductive ChannelSlot
  | lazyUnevaluated (seed : Option String)
  | lazyEvaluated (value : Option String)
  | plain (value : String)
deriving DecidableEq

/-- isinstance(slot, SimpleLazyObject): true for the lazy wrapper whether
or not its thunk has been forced, false for a plain string. -/
def isLazyObject : ChannelSlot → Bool
  | ChannelSlot.plain _ => false
  | _ => true

/-- Embeds ChannelMiddleware.resolve (lines 38-69) acting on the
request.channel_slug slot (none models the attribute being absent).
Line 48-53: if the slot is set, is a SimpleLazyObject instance, and the
new explicit slug is truthy, assign the plain slug.  Line 54-68: if the
slot is absent, install the lazy computation seeded with the explicit
slug. -/
def channelResolve (kwargs : ChannelKwargs) (slot : Option ChannelSlot) :
    Option ChannelSlot :=
  let channel_slug := extractChannelSlug kwargs
  let slot1 :=
    match slot, channel_slug with
    | some s, some c =>
        if isLazyObject s && c != "" then some (ChannelSlot.plain c) else some s
    | _, _ => slot
  match slot1 with
  | none => some (ChannelSlot.lazyUnevaluated channel_slug)
  | some s => some s

/-- What the external get_default_channel_slug_if_available collaborator
does for this request: returns a slug, raises
ChannelSlugNotPassedException, or raises NoChannelException. -/
inductive DefaultChannelOutcome
  | available (slug : String)
  | slugNotPassed
  | noChannel
deriving DecidableEq

/-- A graphql.error.GraphQLError, the client-facing query error. -/
structure GraphQLError where
  message : String
deriving DecidableEq

/-- Embeds the inner get_channel_slug closure (lines 56-64): a falsy seed
falls through to the default-channel collaborator;
ChannelSlugNotPassedException becomes a GraphQLError, NoChannelException
becomes None, otherwise the default slug is returned. -/
def get_channel_slug (default : DefaultChannelOutcome)
    (channel_slug : Option String) : Except GraphQLError (Option String) :=
  if pyTruthy channel_slug then Except.ok channel_slug
  else
    match default with
    | DefaultChannelOutcome.available s => Except.ok (some s)
    | DefaultChannelOutcome.slugNotPassed =>
        Except.error { message := "Argument \x27channel\x60 not passed." }
    | DefaultChannelOutcome.noChannel => Except.ok none

/-- Forcing the channel slot (reading request.channel_slug downstream).
A plain string yields itself; an evaluated lazy object yields its cached
value; an unevaluated one runs get_channel_slug, caching the result on
success and staying unevaluated when the thunk raises (SimpleLazyObject
leaves _wrapped unset when _setup raises). -/
def forceChannelSlot (default : DefaultChannelOutcome) :
    ChannelSlot → Except GraphQLError (Option String) × ChannelSlot
  | ChannelSlot.plain v => (Except.ok (some v), ChannelSlot.plain v)
  | ChannelSlot.lazyEvaluated v => (Except.ok v, ChannelSlot.lazyEvaluated v)
  | ChannelSlot.lazyUnevaluated seed =>
      match get_channel_slug default seed with
      | Except.ok v => (Except.ok v, ChannelSlot.lazyEvaluated v)
      | Except.error e => (Except.error e, ChannelSlot.lazyUnevaluated seed)

/-- An observable action of OpentracingGrapheneMiddleware on the tracing
backend. -/
inductive SpanEvent
  | openSpan (name : String)
  | setTag (key value : String)
  | closeSpan
deriving DecidableEq, BEq

def isOpenEvent : SpanEvent → Bool
  | SpanEvent.openSpan _ => true
  | _ => false

def isCloseEvent : SpanEvent → Bool
  | SpanEvent.closeSpan => true
  | _ => false

/-- Embeds OpentracingGrapheneMiddleware.resolve (lines 72-83).  The
should_trace collaborator is passed as the Bool it returns; the delegated
next step is passed as its outcome (Except models raising).  Returns the
outcome propagated by the middleware together with the sequence of span
events it performs; the with-statement closes the scope on both the
return path and the raise path, so closeSpan is emitted in either case
before the outcome propagates. -/
def opentracingResolve {E A : Type} (shouldTrace : Bool)
    (parentTypeName fieldName : String) (next : Except E A) :
    Except E A × List SpanEvent :=
  if !shouldTrace then (next, [])
  else
    let operation := parentTypeName ++ "." ++ fieldName
    (next,
      [SpanEvent.openSpan operation,
       SpanEvent.setTag "component" "graphql",
       SpanEvent.setTag "graphql.parent_type" parentTypeName,
       SpanEvent.setTag "graphql.field_name" fieldName,
       SpanEvent.closeSpan])

/-- A registered API client (saleor App row); only identity matters
here. -/
structure App where
  id : Nat
deriving DecidableEq

/-- The request.app slot after app_middleware touched it: None assigned
directly, or SimpleLazyObject(lambda: get_app(token)). -/
inductive AppSlot
  | nullApp
  | lazyApp (token : String)
deriving DecidableEq

/-- The request attributes read by app_middleware: the path, the
HTTP_AUTHORIZATION header (none models an absent header), and the app
slot (none models the attribute being absent). -/
structure AppRequest where
  path : String
  authorization : Option String
  app : Option AppSlot
deriving DecidableEq

/-- Helper for pySplit: walks the characters, accumulating the current
word (reversed) and emitting it at each whitespace run. -/
def splitWsAux : List Char → List Char → List String
  | [], cur => if cur = [] then [] else [String.mk cur.reverse]
  | ch :: rest, cur =>
      if ch.isWhitespace then
        if cur = [] then splitWsAux rest []
        else String.mk cur.reverse :: splitWsAux rest []
      else splitWsAux rest (ch :: cur)

/-- Python str.split() with no argument: split on whitespace runs,
dropping empty pieces. -/
def pySplit (s : String) : List String :=
  splitWsAux s.toList []

/-- Python str.lower() as used at line 103 (the compared literal
"bearer" is ASCII, so ASCII lowering is the relevant behaviour). -/
def pyLower (s : String) : String :=
  String.mk (s.toList.map Char.toLower)

/-- Embeds app_middleware (lines 91-105).  API_PATH comes from .views and
is passed as a parameter.  Off the API path the middleware is a
passthrough; on it, a missing app attribute is first set to None and then
replaced by a lazy get_app lookup when the header is exactly two
whitespace-separated tokens whose first is "bearer" case-insensitively. -/
def app_middleware (API_PATH : String) (req : AppRequest) : AppRequest :=
  if req.path = API_PATH then
    match req.app with
    | some _ => req
    | none =>
        let req1 := { req with app := some AppSlot.nullApp }
        match pySplit (req.authorization.getD "") with
        | [ authScheme, authToken] =>
            if pyLower authScheme = "bearer" then
              { req1 with app := some (AppSlot.lazyApp authToken) }
            else req1
        | _ => req1
  else req

/-- Forcing the request.app slot.  The external database lookup
get_app is passed as a function; the Nat counts how many times it runs
during this force. -/
def forceApp (get_app : String → Option App) : AppSlot → Option App × Nat
  | AppSlot.nullApp => (none, 0)
  | AppSlot.lazyApp t => (get_app t, 1)

/-- Embeds ReadOnlyMiddleware.ALLOWED_MUTATIONS (lines 109-126). -/
def ALLOWED_MUTATIONS : List String :=
  ["checkoutAddPromoCode",
   "checkoutBillingAddressUpdate",
   "checkoutComplete",
   "checkoutCreate",
   "checkoutCustomerAttach",
   "checkoutCustomerDetach",
   "checkoutEmailUpdate",
   "checkoutLineDelete",
   "checkoutLinesAdd",
   "checkoutLinesUpdate",
   "checkoutRemovePromoCode",
   "checkoutPaymentCreate",
   "checkoutShippingAddressUpdate",
   "checkoutShippingMethodUpdate",
   "tokenCreate",
   "tokenVerify"]

/-- A saleor.core.exceptions.ReadOnlyException (the spec's
ReadOnlyModeViolation). -/
structure ReadOnlyException where
  message : String
deriving DecidableEq

def readOnlyMessage : String :=
  "Be aware admin pirate! API runs in read-only mode!"

/-- Embeds the selection loop of ReadOnlyMiddleware.resolve (lines
143-149): the first selection name outside the allow-list raises and
stops the loop. -/
def checkSelections : List String → Except ReadOnlyException Unit
  | [] => Except.ok ()
  | s :: rest =>
      if s ∉ ALLOWED_MUTATIONS then Except.error { message := readOnlyMessage }
      else checkSelections rest

/-- The parsed operation as read by ReadOnlyMiddleware:
info.operation.operation and the top-level selection names. -/
structure OperationInfo where
  operation : String
  selections : List String
deriving DecidableEq

/-- Embeds the bypass test of lines 136-141: the user attribute is
present (truthy), non-anonymous, and ROOT_EMAIL is set, truthy, and
equal to the user email. -/
def rootBypass (ROOT_EMAIL : Option String) (user : Option User) : Bool :=
  match user with
  | none => false
  | some u =>
      if !u.is_anonymous then
        match ROOT_EMAIL with
        | some root_email => root_email != "" && u.email == root_email
        | none => false
      else false

/-- Embeds ReadOnlyMiddleware.resolve (lines 128-150).  The delegated
next step is passed as the value it would produce. -/
def readOnlyResolve {A : Type} (ROOT_EMAIL : Option String)
    (info : OperationInfo) (user : Option User) (next : A) :
    Except ReadOnlyException A :=
  if info.operation ≠ "mutation" then Except.ok next
  else if rootBypass ROOT_EMAIL user then Except.ok next
  else
    match checkSelections info.selections with
    | Except.ok _ => Except.ok next
    | Except.error e => Except.error e

/- Helper lemmas -/

theorem run_get_user_cached (authenticate : Option User) (v : Option User) :
    ∀ n, run_get_user authenticate n { cached_user := some v }
      = (List.replicate n v, { cached_user := some v }, 0) := by
  intro n
  induction n with
  | zero => rfl
  | succ m ih => simp [run_get_user, get_user, ih, List.replicate]

theorem checkSelections_first_violation (bad : String)
    (hbad : bad ∉ ALLOWED_MUTATIONS) :
    ∀ pre post, (∀ x ∈ pre, x ∈ ALLOWED_MUTATIONS) →
      checkSelections (pre ++ bad :: post)
        = Except.error { message := readOnlyMessage } := by
  intro pre
  induction pre with
  | nil => intro post _; simp [checkSelections, hbad]
  | cons a rest ih =>
      intro post hall
      have ha : a ∈ ALLOWED_MUTATIONS := hall a (by simp)
      have hrest : ∀ x ∈ rest, x ∈ ALLOWED_MUTATIONS := by
        intro x hx; exact hall x (by simp [hx])
      simp [checkSelections, ha, ih post hrest]

theorem checkSelections_all_allowed :
    ∀ l, (∀ x ∈ l, x ∈ ALLOWED_MUTATIONS) → checkSelections l = Except.ok () := by
  intro l
  induction l with
  | nil => intro _; rfl
  | cons a rest ih =>
      intro hall
      have ha : a ∈ ALLOWED_MUTATIONS := hall a (by simp)
      have hrest : ∀ x ∈ rest, x ∈ ALLOWED_MUTATIONS := by
        intro x hx; exact hall x (by simp [hx])
      simp [checkSelections, ha, ih hrest]

/- Claim theorems -/

/-- C2: for every request, invoking the user resolver any number of times
invokes the external authenticate collaborator at most once (its result,
a null result included, is cached on first access), and every invocation
returns the same cached identity. -/
theorem get_user_memoized (authenticate : Option User) (n : Nat) :
    (run_get_user authenticate n { cached_user := none }).2.2 ≤ 1 ∧
    ∀ u ∈ (run_get_user authenticate n { cached_user := none }).1,
      u = authenticate := by
  cases n with
  | zero => simp [run_get_user]
  | succ m =>
      simp only [run_get_user, get_user, run_get_user_cached]
      constructor
      · simp
      · intro u hu
        simp only [List.mem_cons] at hu
        rcases hu with h | h
        · exact h
        · exact List.eq_of_mem_replicate h

/-- C5: the explicit channel slug is determined with priority: a present
non-empty dict input supplies its channel_slug entry; otherwise a present
channel argument supplies its value; otherwise the slug is absent.  In
particular input with channel_slug "A" beats channel argument "B". -/
theorem extractChannelSlug_priority :
    (∀ d c, d ≠ [] →
        extractChannelSlug { input := some (Arg.dict d), channel := c }
          = lookupKey d "channel_slug") ∧
    (∀ c, extractChannelSlug { input := none, channel := c } = c) ∧
    (∀ c, extractChannelSlug { input := some (Arg.dict []), channel := c } = c) ∧
    (∀ c, extractChannelSlug { input := some Arg.nonDict, channel := c } = c) ∧
    extractChannelSlug
        { input := some (Arg.dict [("channel_slug", "A")]), channel := some "B" }
      = some "A" := by
  refine ⟨?_, ?_, ?_, ?_, by decide⟩
  · intro d c hd
    cases d with
    | nil => exact absurd rfl hd
    | cons p rest => simp [extractChannelSlug]
  · intro c; rfl
  · intro c; rfl
  · intro c; rfl

theorem extractChannelSlug_priority_witness :
    extractChannelSlug
        { input := some (Arg.dict [("channel_slug", "A")]), channel := some "B" }
      = some "A" := by
  have h := extractChannelSlug_priority.1 [("channel_slug", "A")] (some "B")
    (by decide)
  exact h.trans (by decide)

/-- C1 counterexample: a channel slot whose lazy computation has already
been forced (here to "X") is still a SimpleLazyObject instance, so a
later explicit slug "C" does overwrite it, and a subsequent force yields
"C", not the previously forced "X". -/
theorem channel_forced_slot_overwritten :
    channelResolve { input := none, channel := some "C" }
        (some (ChannelSlot.lazyEvaluated (some "X")))
      = some (ChannelSlot.plain "C") ∧
    (forceChannelSlot DefaultChannelOutcome.noChannel
        (ChannelSlot.plain "C")).1 = Except.ok (some "C") ∧
    (some "C" : Option String) ≠ some "X" := by
  exact ⟨by decide, rfl, by decide⟩

/-- C1 (amended): when a field resolution supplies a new explicit
non-empty channel slug and the slot holds the lazy wrapper object —
whether its computation is still unforced or has already been forced —
the middleware overwrites the slot with the plain explicit value, so a
later force resolves to the new explicit slug; only a slot already
holding a plain value (from a previous replacement) is left unchanged by
later explicit slugs. -/
theorem channel_replacement_rule (kwargs : ChannelKwargs) (s : ChannelSlot)
    (c : String) (hx : extractChannelSlug kwargs = some c) (hc : c ≠ "") :
    (isLazyObject s = true →
        channelResolve kwargs (some s) = some (ChannelSlot.plain c) ∧
        ∀ d, (forceChannelSlot d (ChannelSlot.plain c)).1
          = Except.ok (some c)) ∧
    (∀ v, channelResolve kwargs (some (ChannelSlot.plain v))
        = some (ChannelSlot.plain v)) := by
  constructor
  · intro hs
    refine ⟨?_, fun d => rfl⟩
    simp [channelResolve, hx, hs, hc]
  · intro v
    simp [channelResolve, hx, isLazyObject]

theorem channel_replacement_rule_witness :
    channelResolve { input := none, channel := some "C" }
        (some (ChannelSlot.lazyUnevaluated none))
      = some (ChannelSlot.plain "C") := by
  have h := channel_replacement_rule { input := none, channel := some "C" }
    (ChannelSlot.lazyUnevaluated none) "C" (by decide) (by decide)
  exact (h.1 rfl).1

/-- C9: once the middleware has replaced a lazy slot with an explicit
slug, the slot is a plain non-lazy value, so on every later field
resolution the replacement condition fails and further explicit slugs
are ignored: the first explicit slug to trigger a replacement is the one
the rest of the request observes. -/
theorem channel_first_explicit_wins (kwargs : ChannelKwargs) (s : ChannelSlot)
    (c : String) (hs : isLazyObject s = true)
    (hx : extractChannelSlug kwargs = some c) (hc : c ≠ "") :
    channelResolve kwargs (some s) = some (ChannelSlot.plain c) ∧
    isLazyObject (ChannelSlot.plain c) = false ∧
    ∀ kwargs2, channelResolve kwargs2 (some (ChannelSlot.plain c))
        = some (ChannelSlot.plain c) := by
  refine ⟨by simp [channelResolve, hx, hs, hc], rfl, ?_⟩
  intro kwargs2
  cases hx2 : extractChannelSlug kwargs2 with
  | none => simp [channelResolve, hx2]
  | some c2 => simp [channelResolve, hx2, isLazyObject]

theorem channel_first_explicit_wins_witness :
    channelResolve { input := none, channel := some "D" }
        (some (ChannelSlot.plain "C")) = some (ChannelSlot.plain "C") := by
  have h := channel_first_explicit_wins { input := none, channel := some "C" }
    (ChannelSlot.lazyUnevaluated none) "C" rfl (by decide) (by decide)
  exact h.2.2 { input := none, channel := some "D" }

/-- C4: a slot installed with no explicit slug is seeded with an absent
slug; forcing it queries the default-channel collaborator: the
slug-not-passed signal raises the GraphQLError for the missing channel
argument, the no-channel signal yields None without an error, and an
available default yields that slug. -/
theorem channel_default_fallback (kwargs : ChannelKwargs)
    (hx : extractChannelSlug kwargs = none) :
    channelResolve kwargs none = some (ChannelSlot.lazyUnevaluated none) ∧
    (forceChannelSlot DefaultChannelOutcome.slugNotPassed
        (ChannelSlot.lazyUnevaluated none)).1
      = Except.error { message := "Argument \x27channel\x60 not passed." } ∧
    (forceChannelSlot DefaultChannelOutcome.noChannel
        (ChannelSlot.lazyUnevaluated none)).1 = Except.ok none ∧
    ∀ s, (forceChannelSlot (DefaultChannelOutcome.available s)
        (ChannelSlot.lazyUnevaluated none)).1 = Except.ok (some s) := by
  refine ⟨?_, rfl, rfl, fun s => rfl⟩
  simp [channelResolve, hx]

theorem channel_default_fallback_witness :
    channelResolve { input := none, channel := none } none
      = some (ChannelSlot.lazyUnevaluated none) := by
  have h := channel_default_fallback { input := none, channel := none } rfl
  exact h.1

/-- C10: an explicit empty-string slug is treated as absent: it never
triggers replacement of an existing slot, a freshly installed slot is
seeded with the empty string, and forcing that slot behaves exactly as
forcing a slot with an absent seed, falling through to the
default-channel collaborator. -/
theorem channel_empty_slug_absent (kwargs : ChannelKwargs)
    (hx : extractChannelSlug kwargs = some "") :
    (∀ s, channelResolve kwargs (some s) = some s) ∧
    channelResolve kwargs none
      = some (ChannelSlot.lazyUnevaluated (some "")) ∧
    ∀ d, (forceChannelSlot d (ChannelSlot.lazyUnevaluated (some ""))).1
        = (forceChannelSlot d (ChannelSlot.lazyUnevaluated none)).1 := by
  refine ⟨?_, ?_, ?_⟩
  · intro s; simp [channelResolve, hx]
  · simp [channelResolve, hx]
  · intro d; cases d <;> rfl

theorem channel_empty_slug_absent_witness :
    channelResolve { input := none, channel := some "" }
        (some (ChannelSlot.lazyUnevaluated none))
      = some (ChannelSlot.lazyUnevaluated none) := by
  have h := channel_empty_slug_absent { input := none, channel := some "" }
    (by decide)
  exact h.1 (ChannelSlot.lazyUnevaluated none)

/-- C3: for a mutation not covered by the root-email bypass, the first
selected field name outside the allow-list makes the guard raise the
read-only error, rejecting the whole operation whatever the remaining
selections are; when every selected field is allow-listed the guard
delegates to the next step. -/
theorem readonly_rejects_first_violation {A : Type} (ROOT_EMAIL : Option String)
    (info : OperationInfo) (user : Option User) (next : A)
    (hmut : info.operation = "mutation")
    (hbp : rootBypass ROOT_EMAIL user = false) :
    (∀ pre bad post, info.selections = pre ++ bad :: post →
        (∀ x ∈ pre, x ∈ ALLOWED_MUTATIONS) → bad ∉ ALLOWED_MUTATIONS →
        readOnlyResolve ROOT_EMAIL info user next
          = Except.error { message := readOnlyMessage }) ∧
    ((∀ x ∈ info.selections, x ∈ ALLOWED_MUTATIONS) →
        readOnlyResolve ROOT_EMAIL info user next = Except.ok next) := by
  constructor
  · intro pre bad post hsel hpre hbad
    have hch := checkSelections_first_violation bad hbad pre post hpre
    simp [readOnlyResolve, hmut, hbp, hsel, hch]
  · intro hall
    have hch := checkSelections_all_allowed info.selections hall
    simp [readOnlyResolve, hmut, hbp, hch]

theorem readonly_rejects_first_violation_witness :
    readOnlyResolve none
        { operation := "mutation",
          selections := ["tokenCreate", "productCreate"] }
        none (0 : Nat)
      = Except.error { message := readOnlyMessage } := by
  have h := readonly_rejects_first_violation none
    { operation := "mutation", selections := ["tokenCreate", "productCreate"] }
    none (0 : Nat) rfl rfl
  exact h.1 ["tokenCreate"] "productCreate" [] rfl (by decide) (by decide)

/-- C7: a mutation issued by an authenticated user whose email equals the
configured non-empty ROOT_EMAIL bypasses the allow-list check entirely,
whatever the selections; every non-mutation operation passes through the
guard unchanged. -/
theorem readonly_root_bypass {A : Type} (ROOT_EMAIL : Option String)
    (info : OperationInfo) (user : Option User) (next : A) :
    (info.operation ≠ "mutation" →
        readOnlyResolve ROOT_EMAIL info user next = Except.ok next) ∧
    (∀ u root_email, info.operation = "mutation" → user = some u →
        u.is_anonymous = false → ROOT_EMAIL = some root_email →
        root_email ≠ "" → u.email = root_email →
        readOnlyResolve ROOT_EMAIL info user next = Except.ok next) := by
  constructor
  · intro hop; simp [readOnlyResolve, hop]
  · intro u root_email hop hu hanon hre hne hemail
    subst hu; subst hre
    have hbp : rootBypass (some root_email) (some u) = true := by
      simp [rootBypass, hanon, hemail, hne]
    simp [readOnlyResolve, hop, hbp]

theorem readonly_root_bypass_witness :
    readOnlyResolve (some "root@example.com")
        { operation := "mutation", selections := ["productCreate"] }
        (some { email := "root@example.com", is_anonymous := false })
        (0 : Nat)
      = Except.ok 0 ∧
    readOnlyResolve (some "root@example.com")
        { operation := "query", selections := ["productCreate"] }
        none (1 : Nat)
      = Except.ok 1 := by
  constructor
  · exact (readonly_root_bypass (some "root@example.com")
      { operation := "mutation", selections := ["productCreate"] }
      (some { email := "root@example.com", is_anonymous := false }) 0).2
      { email := "root@example.com", is_anonymous := false }
      "root@example.com" rfl rfl rfl rfl (by decide) rfl
  · exact (readonly_root_bypass (some "root@example.com")
      { operation := "query", selections := ["productCreate"] }
      none 1).1 (by decide)

/-- C6: off the API path the app middleware is a pure passthrough; on the
API path with the app attribute unset, a well-formed two-token bearer
header installs the lazy app lookup for its token, and any other header
sets the slot directly to null, whose forcing performs no external
lookup; an already-set slot is never recomputed. -/
theorem app_middleware_spec (API_PATH : String) (req : AppRequest) :
    (req.path ≠ API_PATH → app_middleware API_PATH req = req) ∧
    (∀ slot, req.app = some slot → app_middleware API_PATH req = req) ∧
    (req.path = API_PATH → req.app = none →
        (∀ authScheme authToken,
            pySplit (req.authorization.getD "") = [ authScheme, authToken] →
            pyLower authScheme = "bearer" →
            (app_middleware API_PATH req).app
              = some (AppSlot.lazyApp authToken)) ∧
        ((∀ authScheme authToken,
            pySplit (req.authorization.getD "") = [ authScheme, authToken] →
            pyLower authScheme ≠ "bearer") →
          (app_middleware API_PATH req).app = some AppSlot.nullApp ∧
          ∀ g, forceApp g AppSlot.nullApp = ((none : Option App), 0))) := by
  refine ⟨?_, ?_, ?_⟩
  · intro hp; simp [app_middleware, hp]
  · intro slot hs
    by_cases hp : req.path = API_PATH <;> simp [app_middleware, hp, hs]
  · intro hp ha
    constructor
    · intro authScheme authToken hsp hb
      simp [app_middleware, hp, ha, hsp, hb]
    · intro hno
      refine ⟨?_, fun g => rfl⟩
      cases hsp : pySplit (req.authorization.getD "") with
      | nil => simp [app_middleware, hp, ha, hsp]
      | cons a rest =>
          cases rest with
          | nil => simp [app_middleware, hp, ha, hsp]
          | cons b rest2 =>
              cases rest2 with
              | nil =>
                  have hb := hno a b hsp
                  simp [app_middleware, hp, ha, hsp, hb]
              | cons e rest3 => simp [app_middleware, hp, ha, hsp]

theorem app_middleware_spec_witness :
    app_middleware "/graphql/"
        { path := "/other/", authorization := some "bearer tok", app := none }
      = { path := "/other/", authorization := some "bearer tok", app := none } ∧
    (app_middleware "/graphql/"
        { path := "/graphql/", authorization := some "Bearer tok123",
          app := none }).app
      = some (AppSlot.lazyApp "tok123") ∧
    (app_middleware "/graphql/"
        { path := "/graphql/", authorization := some "Basic xyz",
          app := none }).app
      = some AppSlot.nullApp := by
  refine ⟨?_, ?_, ?_⟩
  · exact (app_middleware_spec "/graphql/"
      { path := "/other/", authorization := some "bearer tok",
        app := none }).1 (by decide)
  · exact ((app_middleware_spec "/graphql/"
      { path := "/graphql/", authorization := some "Bearer tok123",
        app := none }).2.2 rfl rfl).1 "Bearer" "tok123" (by decide) (by decide)
  · have hno : ∀ authScheme authToken,
        pySplit ((some "Basic xyz").getD "") = [ authScheme, authToken] →
        pyLower authScheme ≠ "bearer" := by
      intro authScheme authToken h
      rw [show pySplit ((some "Basic xyz").getD "") = ["Basic", "xyz"] from
        by decide] at h
      injection h with h1 h2
      subst h1
      decide
    exact (((app_middleware_spec "/graphql/"
      { path := "/graphql/", authorization := some "Basic xyz",
        app := none }).2.2 rfl rfl).2 hno).1

/-- C8: when the should-trace predicate says no, the tracing middleware
delegates with no span activity; otherwise it performs exactly one span
opening named ParentType.field, tags it with the graphql component and
the parent-type and field-name metadata, propagates the delegated
outcome unchanged (errors included), and the span close is the last
event, emitted on the raise path as well as the return path. -/
theorem opentracing_span_lifecycle {E A : Type} (shouldTrace : Bool)
    (parentTypeName fieldName : String) (next : Except E A) :
    (shouldTrace = false →
        opentracingResolve shouldTrace parentTypeName fieldName next
          = (next, [])) ∧
    (shouldTrace = true →
        (opentracingResolve shouldTrace parentTypeName fieldName next).1
          = next ∧
        List.countP isOpenEvent
            (opentracingResolve shouldTrace parentTypeName fieldName next).2
          = 1 ∧
        List.countP isCloseEvent
            (opentracingResolve shouldTrace parentTypeName fieldName next).2
          = 1 ∧
        List.head?
            (opentracingResolve shouldTrace parentTypeName fieldName next).2
          = some (SpanEvent.openSpan (parentTypeName ++ "." ++ fieldName)) ∧
        SpanEvent.setTag "component" "graphql"
          ∈ (opentracingResolve shouldTrace parentTypeName fieldName next).2 ∧
        SpanEvent.setTag "graphql.parent_type" parentTypeName
          ∈ (opentracingResolve shouldTrace parentTypeName fieldName next).2 ∧
        SpanEvent.setTag "graphql.field_name" fieldName
          ∈ (opentracingResolve shouldTrace parentTypeName fieldName next).2 ∧
        List.getLast?
            (opentracingResolve shouldTrace parentTypeName fieldName next).2
          = some SpanEvent.closeSpan) := by
  constructor
  · intro h; subst h; rfl
  · intro h; subst h
    refine ⟨rfl, ?_, ?_, rfl, ?_, ?_, ?_, rfl⟩ <;>
      simp [opentracingResolve, isOpenEvent, isCloseEvent]

theorem opentracing_span_lifecycle_witness :
    (opentracingResolve true "Query" "me"
        (Except.error "boom" : Except String Nat)).1 = Except.error "boom" ∧
    List.getLast? (opentracingResolve true "Query" "me"
        (Except.error "boom" : Except String Nat)).2
      = some SpanEvent.closeSpan ∧
    opentracingResolve false "Query" "me"
        (Except.ok 7 : Except String Nat) = (Except.ok 7, []) := by
  have h1 := (opentracing_span_lifecycle true "Query" "me"
      (Except.error "boom" : Except String Nat)).2 rfl
  have h2 := (opentracing_span_lifecycle false "Query" "me"
      (Except.ok 7 : Except String Nat)).1 rfl
  exact ⟨h1.1, h1.2.2.2.2.2.2.2, h2⟩
